import Mathlib

/-!
Verification of the MCP2221 USB-HID-to-I2C bridge of the `mklimuk/sensors`
repository (`src/adapter/mcp2221.go`, package `adapter`) and of the MCP23017
GPIO-expander retry layer (package `gpio`).

The Go code is shallowly embedded: the mutable `MCP2221` struct becomes an
explicit state record, the HID device becomes an oracle
(`HidWorld`) that scripts the outcome of each `hid.Device.Write` /
`hid.Device.Read` call and records a trace of every transport interaction,
and `context.Context` cancellation is a boolean saying whether the
cancellation signal fires before the guard delay elapses.  Go byte
arithmetic is `Nat` arithmetic with explicit `% 256`; `uint16` conversion is
`% 65536` (folded into the little-endian byte extraction below).
-/

/-- A Go `byte` value (kept as `Nat`; real frames only hold values < 256). -/
abbrev GByte := Nat

/-- A fixed 64-byte HID report buffer (`d.request` / `d.response` in Go). -/
abbrev Frame := List GByte

/-- Read `buf[i]`.  Go indexing would panic out of bounds; the frames in the
source are always 64 bytes long so the default 0 is never exercised there. -/
def getByte (buf : Frame) (i : Nat) : GByte := buf.getD i 0

/-- `binary.LittleEndian.PutUint16(buf[i:i+2], uint16(v))`: stores the low
byte at index `i` and the high byte at `i+1`.  The Go `uint16` truncation is
folded in, since `v % 65536 % 256 = v % 256` and
`v % 65536 / 256 = v / 256 % 256`. -/
def putUint16LE (buf : List GByte) (i v : Nat) : List GByte :=
  (buf.set i (v % 256)).set (i + 1) (v / 256 % 256)

/-- Go built-in `copy(dst, src)`: copies `min (len dst) (len src)` elements
into the front of `dst`, leaving the rest of `dst` untouched. -/
def goCopy (dst src : List GByte) : List GByte :=
  src.take (min dst.length src.length) ++ dst.drop (min dst.length src.length)

/-- Go `copy(dst[off:], src)`. -/
def copyAt (dst : List GByte) (off : Nat) (src : List GByte) : List GByte :=
  dst.take off ++ goCopy (dst.drop off) src

/-- `resetBuffer` from the source: zeroes every byte except the last one
("all but the last byte" -- the loop runs for `i < len(buf)-1`). -/
def resetBuffer (buf : Frame) : Frame :=
  List.replicate (buf.length - 1) 0 ++ buf.drop (buf.length - 1)

/-- Error taxonomy of the engine.  Each constructor corresponds to a family
of wrapped Go errors; `fmt.Errorf` wrapping that only changes the message
keeps the constructor.  `busBusyReleaseFailed` is
`fmt.Errorf("%w; could not release bus: %v", sensors.ErrBusBusy, err)`:
it wraps `sensors.ErrBusBusy` (so `errors.Is(err, ErrBusBusy)` holds) and
carries the release failure. -/
inductive Err where
  | notConnected
  | sendFailed
  | recvFailed
  | ctxCanceled
  | busBusy
  | busBusyReleaseFailed (cause : Err)
  | releaseRequestFailed (cause : Err)
  | slaveDataReadFailed
  | invalidDataSize (expected got : Nat)
  deriving DecidableEq

/-- `errors.Is(e, sensors.ErrBusBusy)` on the modelled errors. -/
def Err.isBusBusy : Err → Bool
  | .busBusy => true
  | .busBusyReleaseFailed _ => true
  | _ => false

/-- One observable interaction with the HID device: an attempted 64-byte
report write (carrying the request frame), a successful 64-byte report read
(carrying the response frame), or a failed read. -/
inductive HidEvent where
  | send (frame : Frame)
  | recv (frame : Frame)
  | recvFail
  deriving DecidableEq

/-- The HID device oracle plus the observation trace.  `sendOutcomes`
scripts each `hid.Device.Write` (`true` = full 64-byte write accepted,
`false` = error or short write); `recvOutcomes` scripts each
`hid.Device.Read` (`some f` = the 64-byte response `f`, `none` = error or
short read).  An exhausted script behaves as a failing device. -/
structure HidWorld where
  sendOutcomes : List Bool
  recvOutcomes : List (Option Frame)
  trace : List HidEvent
  deriving DecidableEq

/-- One `hid.Device.Write` of the request frame (the body of
`MCP2221.send`: short writes and write errors both fail the operation). -/
def hidSend (req : Frame) (w : HidWorld) : Except Err Unit × HidWorld :=
  match w.sendOutcomes with
  | [] => (.error .sendFailed, { w with trace := w.trace ++ [.send req] })
  | ok :: rest =>
      (if ok then .ok () else .error .sendFailed,
       { w with sendOutcomes := rest, trace := w.trace ++ [.send req] })

/-- One `hid.Device.Read` into the response buffer. -/
def hidRecv (w : HidWorld) : Except Err Frame × HidWorld :=
  match w.recvOutcomes with
  | [] => (.error .recvFailed, { w with trace := w.trace ++ [.recvFail] })
  | none :: rest =>
      (.error .recvFailed,
       { w with recvOutcomes := rest, trace := w.trace ++ [.recvFail] })
  | some f :: rest =>
      (.ok f, { w with recvOutcomes := rest, trace := w.trace ++ [.recv f] })

/-- Connection status constants (`StatusNew`..`StatusConnected` iota). -/
def StatusNew : Nat := 0

def StatusInitialized : Nat := 1

def StatusConnecting : Nat := 2

def StatusConnected : Nat := 3

/-- The `MCP2221` struct: connection status plus the two reused 64-byte
buffers.  The mutex, timing fields and device handle are represented by the
explicit sequencing of the embedding and by `HidWorld`. -/
structure MCP2221 where
  status : Nat
  request : Frame
  response : Frame
  deriving DecidableEq

/-- `NewMCP2221()`: zeroed 64-byte buffers, zero-value status (`StatusNew`).
The vendor/product ids, delays and reconnect channel are not part of the
modelled behaviour. -/
def NewMCP2221 : MCP2221 :=
  { status := StatusNew
    request := List.replicate 64 0
    response := List.replicate 64 0 }

/-- A bridge whose supervisor has reached `StatusConnected` (the state
`connect()` leaves behind on success), with freshly zeroed buffers. -/
def connectedMCP2221 : MCP2221 :=
  { NewMCP2221 with status := StatusConnected }

/-- `d.resetBuffers()`. -/
def MCP2221.resetBuffers (d : MCP2221) : MCP2221 :=
  { d with request := resetBuffer d.request, response := resetBuffer d.response }

/-- `d.receive(ctx)`: reads one 64-byte report into `d.response`. -/
def MCP2221.receive (d : MCP2221) (w : HidWorld) :
    Except Err Unit × MCP2221 × HidWorld :=
  match hidRecv w with
  | (.ok f, w2) => (.ok (), { d with response := f }, w2)
  | (.error e, w2) => (.error e, d, w2)

/-- `d.waitAndReceive(ctx, delay)`: a `select` racing `time.After(delay)`
against `ctx.Done()`.  `canceled = true` means the caller's cancellation
fires before the guard delay elapses, in which case `ctx.Err()` is returned
and no read is performed; otherwise the timer fires and the response is
read. -/
def MCP2221.waitAndReceive (d : MCP2221) (canceled : Bool) (w : HidWorld) :
    Except Err Unit × MCP2221 × HidWorld :=
  if canceled then (.error .ctxCanceled, d, w)
  else d.receive w

/-- Decoded `BridgeStatus` snapshot (struct `MCP2221Status`).
`CurrentAddress` is the pair of bytes that Go hex-encodes into a string. -/
structure MCP2221Status where
  I2CDataBufferCounter : Nat
  I2CSpeedDivider : Nat
  I2CTimeout : Nat
  CurrentAddress : List GByte
  I2CAddress : GByte
  LastI2CRequestedSize : Nat
  LastI2CTransferredSize : Nat
  ReadPending : Nat
  deriving DecidableEq

/-- `bufferToStatus(buffer)`: fixed byte-offset extraction; the two sizes
are little-endian 16-bit reads of bytes 9-10 and 11-12. -/
def bufferToStatus (buffer : Frame) : MCP2221Status :=
  { I2CDataBufferCounter := getByte buffer 13
    I2CSpeedDivider := getByte buffer 14
    I2CTimeout := getByte buffer 15
    CurrentAddress := [getByte buffer 16, getByte buffer 17]
    I2CAddress := getByte buffer 16
    LastI2CRequestedSize := getByte buffer 9 + 256 * getByte buffer 10
    LastI2CTransferredSize := getByte buffer 11 + 256 * getByte buffer 12
    ReadPending := getByte buffer 25 }

/-- `d.releaseBus(ctx)`: sends the release-bus frame (opcode 0x10 with the
release sub-field 0x10 at byte 2).  Note that the source assigns the error
of `waitAndReceive` but never checks it, so after a successful send the
call always returns a decoded status and a nil error. -/
def MCP2221.releaseBus (d : MCP2221) (canceled : Bool) (w : HidWorld) :
    Except Err MCP2221Status × MCP2221 × HidWorld :=
  let d := d.resetBuffers
  let d := { d with request := (d.request.set 0 0x10).set 2 0x10 }
  match hidSend d.request w with
  | (.error e, w2) => (.error (.releaseRequestFailed e), d, w2)
  | (.ok _, w2) =>
      match d.waitAndReceive canceled w2 with
      | (_, d2, w3) => (.ok (bufferToStatus d2.response), d2, w3)

/-- The request-frame construction of `WriteToAddr` (source lines: opcode
0x90 at byte 0, `binary.LittleEndian.PutUint16` of `uint16(len(buffer))` at
bytes 1-2, `address << 1` at byte 3, `copy(d.request[4:], buffer)` when the
payload is non-empty), applied to the freshly reset request buffer. -/
def writeRequestOf (request : Frame) (address : GByte)
    (buffer : List GByte) : Frame :=
  let req := request.set 0 0x90
  let req := putUint16LE req 1 buffer.length
  let req := req.set 3 ((address <<< 1) % 256)
  if 0 < buffer.length then copyAt req 4 buffer else req

/-- The request-frame construction of `ReadFromAddr` (opcode 0x91,
little-endian 16-bit requested length, `address<<1 + 1` at byte 3). -/
def readRequestOf (request : Frame) (address : GByte)
    (buffer : List GByte) : Frame :=
  let req := request.set 0 0x91
  let req := putUint16LE req 1 buffer.length
  req.set 3 ((address <<< 1 + 1) % 256)

/-- `d.WriteToAddr(ctx, address, buffer)` (the supervised variant of the
engine).  Frame: opcode 0x90, little-endian 16-bit payload length at bytes
1-2, `address << 1` (byte arithmetic) at byte 3, payload copied from byte 4.
After the exchange, a response byte 1 of 0x01 triggers an internal
`releaseBus`; if the release fails, the wrapped `ErrBusBusy` error is
returned, otherwise the function falls through to `return nil`. -/
def MCP2221.WriteToAddr (d : MCP2221) (canceled : Bool) (address : GByte)
    (buffer : List GByte) (w : HidWorld) :
    Except Err Unit × MCP2221 × HidWorld :=
  if d.status ≠ StatusConnected then (.error .notConnected, d, w)
  else
    let d := d.resetBuffers
    let d := { d with request := writeRequestOf d.request address buffer }
    match hidSend d.request w with
    | (.error e, w2) => (.error e, d, w2)
    | (.ok _, w2) =>
        match d.waitAndReceive canceled w2 with
        | (.error e, d2, w3) => (.error e, d2, w3)
        | (.ok _, d2, w3) =>
            if getByte d2.response 1 = 0x01 then
              match d2.releaseBus canceled w3 with
              | (.error e, d3, w4) => (.error (.busBusyReleaseFailed e), d3, w4)
              | (.ok _, d3, w4) => (.ok (), d3, w4)
            else (.ok (), d2, w3)

/-- `d.ReadFromAddr(ctx, address, buffer)`.  The second component of the
result is the caller's buffer after the call (Go mutates it in place only
at the final `copy`). -/
def MCP2221.ReadFromAddr (d : MCP2221) (canceled : Bool) (address : GByte)
    (buffer : List GByte) (w : HidWorld) :
    Except Err Unit × List GByte × MCP2221 × HidWorld :=
  if d.status ≠ StatusConnected then (.error .notConnected, buffer, d, w)
  else
    let d := d.resetBuffers
    let d := { d with request := readRequestOf d.request address buffer }
    match hidSend d.request w with
    | (.error e, w2) => (.error e, buffer, d, w2)
    | (.ok _, w2) =>
        match d.receive w2 with
        | (.error e, d2, w3) => (.error e, buffer, d2, w3)
        | (.ok _, d2, w3) =>
            if getByte d2.response 1 = 0x01 then
              match d2.releaseBus canceled w3 with
              | (.error e, d3, w4) =>
                  (.error (.busBusyReleaseFailed e), buffer, d3, w4)
              | (.ok _, d3, w4) => (.error .busBusy, buffer, d3, w4)
            else
              let d3 := { d2 with request := d2.request.set 0 0x40,
                                  response := resetBuffer d2.response }
              match hidSend d3.request w3 with
              | (.error e, w4) => (.error e, buffer, d3, w4)
              | (.ok _, w4) =>
                  match d3.waitAndReceive canceled w4 with
                  | (.error e, d4, w5) => (.error e, buffer, d4, w5)
                  | (.ok _, d4, w5) =>
                      if getByte d4.response 1 = 0x41 then
                        (.error .slaveDataReadFailed, buffer, d4, w5)
                      else if getByte d4.response 3 = 127 ∨
                          getByte d4.response 3 ≠ buffer.length then
                        (.error (.invalidDataSize buffer.length
                          (getByte d4.response 3)), buffer, d4, w5)
                      else
                        (.ok (), goCopy buffer (d4.response.drop 4), d4, w5)

/-- `d.doGetStatus(ctx)`: status exchange (opcode 0x10), no connection
check of its own. -/
def MCP2221.doGetStatus (d : MCP2221) (w : HidWorld) :
    Except Err MCP2221Status × MCP2221 × HidWorld :=
  let d := d.resetBuffers
  let d := { d with request := d.request.set 0 0x10 }
  match hidSend d.request w with
  | (.error e, w2) => (.error e, d, w2)
  | (.ok _, w2) =>
      match d.receive w2 with
      | (.error e, d2, w3) => (.error e, d2, w3)
      | (.ok _, d2, w3) => (.ok (bufferToStatus d2.response), d2, w3)

/-- `d.Status(ctx)`. -/
def MCP2221.Status (d : MCP2221) (w : HidWorld) :
    Except Err MCP2221Status × MCP2221 × HidWorld :=
  if d.status ≠ StatusConnected then (.error .notConnected, d, w)
  else d.doGetStatus w

/-- `d.Release(ctx)`: the `sensors.I2CBus` release operation. -/
def MCP2221.Release (d : MCP2221) (canceled : Bool) (w : HidWorld) :
    Except Err Unit × MCP2221 × HidWorld :=
  if d.status ≠ StatusConnected then (.error .notConnected, d, w)
  else
    match d.releaseBus canceled w with
    | (.error e, d2, w2) => (.error e, d2, w2)
    | (.ok _, d2, w2) => (.ok (), d2, w2)

/-- Outcome of one tick-branch iteration of `waitForI2CTransfer`'s polling
loop. -/
inductive PollOutcome where
  | nilStatusPanic
  | addressMismatch (expected got : GByte)
  | transferComplete
  | keepPolling
  deriving DecidableEq

/-- The body of the `case <-tick.C` branch of `d.waitForI2CTransfer`.  When
`doGetStatus` fails the source only logs the error and then unconditionally
evaluates `status.I2CAddress` with `status == nil`, a nil-pointer
dereference; `nilStatusPanic` marks that dereference. -/
def MCP2221.waitForI2CTransferTick (d : MCP2221) (address : GByte)
    (w : HidWorld) : PollOutcome × MCP2221 × HidWorld :=
  match d.doGetStatus w with
  | (.error _, d2, w2) => (.nilStatusPanic, d2, w2)
  | (.ok s, d2, w2) =>
      if s.I2CAddress ≠ 0x00 ∧ s.I2CAddress ≠ address then
        (.addressMismatch address s.I2CAddress, d2, w2)
      else if s.LastI2CRequestedSize = s.LastI2CTransferredSize then
        (.transferComplete, d2, w2)
      else (.keepPolling, d2, w2)

/-- Recognizes the release-bus request frame (opcode 0x10, byte 2 = 0x10)
among the transmitted reports, to count internal release exchanges. -/
def isReleaseSend : HidEvent → Bool
  | .send f => getByte f 0 == 0x10 && getByte f 2 == 0x10
  | _ => false

/-- Recognizes response-read attempts in the trace. -/
def isRecvEvent : HidEvent → Bool
  | .recv _ => true
  | .recvFail => true
  | _ => false

/-!
The MCP23017 GPIO-expander driver (package `gpio`) sits on top of the
`sensors.I2CBus` capability (`WriteToAddr` / `ReadFromAddr` / `Release`).
Its transport is modelled as a scripted oracle: each transport call
consumes the next scripted outcome and is recorded in a call trace.
`errors.Is(err, sensors.ErrBusBusy)` partitions transport errors into the
`busy` class (which `fmt.Errorf("...: %w", err)` wrapping preserves) and
everything else.
-/

deriving instance DecidableEq for Except

/-- Classification of a `sensors.I2CBus` error as seen through
`errors.Is(err, sensors.ErrBusBusy)`. -/
inductive BusErr where
  | busy
  | other
  deriving DecidableEq

/-- `errors.Is(e, sensors.ErrBusBusy)`. -/
def BusErr.isBusBusy : BusErr → Bool
  | .busy => true
  | .other => false

/-- One call made by the driver on the `sensors.I2CBus` transport. -/
inductive BusCall where
  | writeCall (addr : GByte) (payload : List GByte)
  | readCall (addr : GByte) (size : Nat)
  | releaseCall
  deriving DecidableEq

/-- The transport oracle: `script` gives the outcome of each successive
call (`.ok data` fills the read buffer with `data` for `ReadFromAddr` and
is ignored for writes/releases); `calls` is the observation trace. -/
structure BusWorld where
  script : List (Except BusErr (List GByte))
  calls : List BusCall
  deriving DecidableEq

/-- Performs one transport call against the scripted oracle. -/
def busStep (c : BusCall) (b : BusWorld) :
    Except BusErr (List GByte) × BusWorld :=
  match b.script with
  | [] => (.error .other, { b with calls := b.calls ++ [c] })
  | r :: rest => (r, { script := rest, calls := b.calls ++ [c] })

/-- The 21 MCP23017 register names (`registry` iota constants). -/
inductive Registry where
  | IODIRA
  | IOPOLA
  | GPINTENA
  | DEFVALA
  | INTCONA
  | IOCONA
  | GPPUA
  | INTFA
  | INTCAPA
  | GPIOA
  | IODIRB
  | IOPOLB
  | GPINTENB
  | DEFVALB
  | INTCONB
  | IOCONB
  | GPPUB
  | INTFB
  | INTCAPB
  | GPIOB
  | OLATB
  deriving DecidableEq

/-- `BankAddr[0]`: register addresses in bank-0 addressing. -/
def bankAddr0 : Registry → GByte
  | .IODIRA => 0x00
  | .IOPOLA => 0x02
  | .GPINTENA => 0x04
  | .DEFVALA => 0x06
  | .INTCONA => 0x08
  | .IOCONA => 0x0A
  | .GPPUA => 0x0C
  | .INTFA => 0x0E
  | .INTCAPA => 0x10
  | .GPIOA => 0x12
  | .IODIRB => 0x01
  | .IOPOLB => 0x03
  | .GPINTENB => 0x05
  | .DEFVALB => 0x07
  | .INTCONB => 0x09
  | .IOCONB => 0x0B
  | .GPPUB => 0x0D
  | .INTFB => 0x0F
  | .INTCAPB => 0x11
  | .GPIOB => 0x13
  | .OLATB => 0x15

/-- `BankAddr[1]`: register addresses in bank-1 addressing. -/
def bankAddr1 : Registry → GByte
  | .IODIRA => 0x00
  | .IOPOLA => 0x01
  | .GPINTENA => 0x02
  | .DEFVALA => 0x03
  | .INTCONA => 0x04
  | .IOCONA => 0x05
  | .GPPUA => 0x06
  | .INTFA => 0x07
  | .INTCAPA => 0x08
  | .GPIOA => 0x09
  | .IODIRB => 0x10
  | .IOPOLB => 0x11
  | .GPINTENB => 0x12
  | .DEFVALB => 0x13
  | .INTCONB => 0x14
  | .IOCONB => 0x15
  | .GPPUB => 0x16
  | .INTFB => 0x17
  | .INTCAPB => 0x18
  | .GPIOB => 0x19
  | .OLATB => 0x1A

/-- `BankAddr[bank][r]`. -/
def BankAddr (bank : Nat) (r : Registry) : GByte :=
  if bank = 0 then bankAddr0 r else bankAddr1 r

/-- The `MCP23017` struct (the transport is passed explicitly as a
`BusWorld`). -/
structure MCP23017 where
  bank : Nat
  address : GByte
  retryLimit : Nat
  deriving DecidableEq

/-- `NewMCP23017(bus, address)`: `retryLimit` defaults to 1; `bank` keeps
its zero value. -/
def NewMCP23017 (address : GByte) : MCP23017 :=
  { bank := 0, address := address, retryLimit := 1 }

/-- `m.readRegistry(ctx, addr)`: writes the one-byte register address, then
reads one byte back.  On transport failure it returns `0x00` with the
(wrapped) transport error. -/
def MCP23017.readRegistry (m : MCP23017) (regAddr : GByte) (b : BusWorld) :
    Except BusErr GByte × BusWorld :=
  match busStep (.writeCall m.address [regAddr]) b with
  | (.error e, b2) => (.error e, b2)
  | (.ok _, b2) =>
      match busStep (.readCall m.address 1) b2 with
      | (.error e, b3) => (.error e, b3)
      | (.ok data, b3) => (.ok (data.getD 0 0), b3)

/-- Result of a retried driver read. -/
inductive RetryResult where
  | ok (value : GByte)
  | aborted (value : GByte) (e : BusErr)
  | retryLimitReached (value : GByte) (e : Option BusErr)
  deriving DecidableEq

/-- The `for i := m.retryLimit; i > 0; i--` loop shared by the driver's
read operations: attempt `readRegistry`; stop on success; on an error that
is not `ErrBusBusy` return immediately (`aborted`); on `ErrBusBusy` call
`m.transport.Release` (result discarded) and loop.  When the counter
reaches zero the "retry limit reached" error wrapping the last error is
returned. -/
def MCP23017.readWithRetry (m : MCP23017) (regAddr : GByte) :
    Nat → Option BusErr → BusWorld → RetryResult × BusWorld
  | 0, lastErr, b => (.retryLimitReached 0 lastErr, b)
  | i + 1, _, b =>
      match m.readRegistry regAddr b with
      | (.ok v, b2) => (.ok v, b2)
      | (.error e, b2) =>
          if e.isBusBusy then
            let rb := busStep .releaseCall b2
            m.readWithRetry regAddr i (some e) rb.2
          else (.aborted 0 e, b2)

/-- `m.ReadA(ctx)`: retried read of the `GPIOA` register. -/
def MCP23017.ReadA (m : MCP23017) (b : BusWorld) : RetryResult × BusWorld :=
  m.readWithRetry (BankAddr m.bank Registry.GPIOA) m.retryLimit none b

/-- `m.ReadB(ctx)`: retried read of the `GPIOB` register. -/
def MCP23017.ReadB (m : MCP23017) (b : BusWorld) : RetryResult × BusWorld :=
  m.readWithRetry (BankAddr m.bank Registry.GPIOB) m.retryLimit none b

/-- Counts driver operation attempts (each `readRegistry` attempt starts
with exactly one transport `WriteToAddr` call). -/
def isAttemptCall : BusCall → Bool
  | .writeCall _ _ => true
  | _ => false

/-- Counts `Release` calls made by the driver. -/
def isReleaseCall : BusCall → Bool
  | .releaseCall => true
  | _ => false

/-- The I2C write request frame as the specification describes it: opcode
0x90, little-endian 16-bit payload length at bytes 1-2, the address shifted
left by one (as a byte) at byte 3, payload from byte 4, rest zero. -/
def specI2CWriteFrame (address : GByte) (payload : List GByte) : Frame :=
  0x90 :: payload.length % 256 :: payload.length / 256 % 256 ::
    (address <<< 1) % 256 ::
    (payload ++ List.replicate (60 - payload.length) 0)

/-- The I2C read request frame as the specification describes it: opcode
0x91, little-endian 16-bit requested length at bytes 1-2, and
`(address << 1) | 1` at byte 3. -/
def specI2CReadFrame (address : GByte) (size : Nat) : Frame :=
  0x91 :: size % 256 :: size / 256 % 256 ::
    (((address <<< 1) % 256) ||| 1) :: List.replicate 60 0

theorem resetBuffer_zeroed :
    resetBuffer (List.replicate 64 0) =
      0 :: 0 :: 0 :: 0 :: List.replicate 60 0 := by
  unfold resetBuffer
  rw [List.length_replicate, List.drop_replicate,
    show (64 : Nat) - 1 = 3 + 60 from rfl, List.replicate_add]
  rfl

theorem goCopy_replicate_of_le (n : Nat) (src : List GByte)
    (h : src.length ≤ n) :
    goCopy (List.replicate n 0) src =
      src ++ List.replicate (n - src.length) 0 := by
  unfold goCopy
  rw [List.length_replicate, Nat.min_eq_right h, List.take_length,
    List.drop_replicate]

theorem goCopy_replicate_of_ge (n : Nat) (src : List GByte)
    (h : n ≤ src.length) :
    goCopy (List.replicate n 0) src = src.take n := by
  unfold goCopy
  rw [List.length_replicate, Nat.min_eq_left h, List.drop_replicate]
  simp

set_option maxRecDepth 8000 in
/-- For a byte address, the Go `address<<1 + 1` (an even byte plus one)
coincides with the specification's `(address << 1) | 1`. -/
theorem byte3_read_eq_lor :
    ∀ a < 256, (a <<< 1 + 1) % 256 = ((a <<< 1) % 256) ||| 1 := by decide

/-- The write request built by the source on a reset buffer is exactly the
specification's write frame, for payloads within the 60-byte capacity. -/
theorem writeRequestOf_spec (address : GByte) (buffer : List GByte)
    (hb : buffer.length ≤ 60) :
    writeRequestOf (resetBuffer (List.replicate 64 0)) address buffer =
      specI2CWriteFrame address buffer := by
  unfold writeRequestOf putUint16LE
  rw [resetBuffer_zeroed]
  rcases Nat.eq_zero_or_pos buffer.length with h0 | h0
  · rw [if_neg (by omega)]
    have he : buffer = [] := List.eq_nil_of_length_eq_zero h0
    subst he
    rfl
  · rw [if_pos h0]
    show copyAt (0x90 :: buffer.length % 256 :: buffer.length / 256 % 256 ::
      (address <<< 1) % 256 :: List.replicate 60 0) 4 buffer = _
    unfold copyAt
    show [0x90, buffer.length % 256, buffer.length / 256 % 256,
      (address <<< 1) % 256] ++ goCopy (List.replicate 60 0) buffer = _
    rw [goCopy_replicate_of_le 60 buffer hb]
    rfl

/-- For oversized payloads the built write frame silently keeps only the
first 60 payload bytes while still recording the full length. -/
theorem writeRequestOf_trunc (address : GByte) (buffer : List GByte)
    (hb : 60 ≤ buffer.length) :
    writeRequestOf (resetBuffer (List.replicate 64 0)) address buffer =
      0x90 :: buffer.length % 256 :: buffer.length / 256 % 256 ::
        (address <<< 1) % 256 :: buffer.take 60 := by
  unfold writeRequestOf putUint16LE
  rw [resetBuffer_zeroed, if_pos (by omega)]
  show copyAt (0x90 :: buffer.length % 256 :: buffer.length / 256 % 256 ::
    (address <<< 1) % 256 :: List.replicate 60 0) 4 buffer = _
  unfold copyAt
  show [0x90, buffer.length % 256, buffer.length / 256 % 256,
    (address <<< 1) % 256] ++ goCopy (List.replicate 60 0) buffer = _
  rw [goCopy_replicate_of_ge 60 buffer hb]
  rfl

/-- The read request built by the source on a reset buffer is exactly the
specification's read frame. -/
theorem readRequestOf_spec (address : GByte) (buffer : List GByte)
    (ha : address < 256) :
    readRequestOf (resetBuffer (List.replicate 64 0)) address buffer =
      specI2CReadFrame address buffer.length := by
  unfold readRequestOf putUint16LE
  rw [resetBuffer_zeroed]
  show (0x91 :: buffer.length % 256 :: buffer.length / 256 % 256 ::
    0 :: List.replicate 60 0).set 3 ((address <<< 1 + 1) % 256) = _
  rw [show ((0x91 : Nat) :: buffer.length % 256 ::
    buffer.length / 256 % 256 :: 0 :: List.replicate 60 0).set 3
      ((address <<< 1 + 1) % 256) =
    0x91 :: buffer.length % 256 :: buffer.length / 256 % 256 ::
      (address <<< 1 + 1) % 256 :: List.replicate 60 0 from rfl]
  rw [byte3_read_eq_lor address ha]
  rfl

theorem hidSend_trace (req : Frame) (w : HidWorld) :
    (hidSend req w).2.trace = w.trace ++ [.send req] := by
  unfold hidSend
  cases w.sendOutcomes <;> rfl

theorem hidRecv_trace (w : HidWorld) :
    ∃ e, (hidRecv w).2.trace = w.trace ++ [e] := by
  unfold hidRecv
  rcases w.recvOutcomes with _ | ⟨_ | f, rest⟩
  · exact ⟨.recvFail, rfl⟩
  · exact ⟨.recvFail, rfl⟩
  · exact ⟨.recv f, rfl⟩

theorem receive_trace (d : MCP2221) (w : HidWorld) :
    ∃ e, (d.receive w).2.2.trace = w.trace ++ [e] := by
  obtain ⟨e, he⟩ := hidRecv_trace w
  unfold MCP2221.receive
  rcases h : hidRecv w with ⟨res, w2⟩
  rw [h] at he
  cases res <;> exact ⟨e, he⟩

theorem waitAndReceive_trace (d : MCP2221) (c : Bool) (w : HidWorld) :
    ∃ l, (d.waitAndReceive c w).2.2.trace = w.trace ++ l := by
  unfold MCP2221.waitAndReceive
  cases c
  · obtain ⟨e, he⟩ := receive_trace d w
    exact ⟨[e], by simpa using he⟩
  · exact ⟨[], by simp⟩

theorem hidSend_traceEq {req : Frame} {w : HidWorld} {res : Except Err Unit}
    {w2 : HidWorld} (h : hidSend req w = (res, w2)) :
    w2.trace = w.trace ++ [.send req] := by
  have h2 := hidSend_trace req w
  rw [h] at h2
  exact h2

theorem hidSend_traceExt {req : Frame} {w : HidWorld}
    {res : Except Err Unit} {w2 : HidWorld} (h : hidSend req w = (res, w2)) :
    ∃ l, w2.trace = w.trace ++ l :=
  ⟨[.send req], hidSend_traceEq h⟩

theorem receive_traceExt {d : MCP2221} {w : HidWorld}
    {res : Except Err Unit} {d2 : MCP2221} {w2 : HidWorld}
    (h : d.receive w = (res, d2, w2)) :
    ∃ l, w2.trace = w.trace ++ l := by
  obtain ⟨e, he⟩ := receive_trace d w
  rw [h] at he
  exact ⟨[e], he⟩

theorem waitAndReceive_traceExt {d : MCP2221} {c : Bool} {w : HidWorld}
    {res : Except Err Unit} {d2 : MCP2221} {w2 : HidWorld}
    (h : d.waitAndReceive c w = (res, d2, w2)) :
    ∃ l, w2.trace = w.trace ++ l := by
  obtain ⟨l, hl⟩ := waitAndReceive_trace d c w
  rw [h] at hl
  exact ⟨l, hl⟩

theorem traceExt_trans {t1 t2 t3 : List HidEvent}
    (h1 : ∃ a, t2 = t1 ++ a) (h2 : ∃ b, t3 = t2 ++ b) :
    ∃ c, t3 = t1 ++ c := by
  obtain ⟨a, ha⟩ := h1
  obtain ⟨b, hb⟩ := h2
  subst ha hb
  exact ⟨a ++ b, by simp⟩

theorem releaseBus_trace (d : MCP2221) (c : Bool) (w : HidWorld) :
    ∃ l, (d.releaseBus c w).2.2.trace = w.trace ++ l := by
  unfold MCP2221.releaseBus
  dsimp only
  split
  next e w2 hs => exact hidSend_traceExt hs
  next a w2 hs =>
    rcases hw : MCP2221.waitAndReceive _ c w2 with ⟨res2, d2, w3⟩
    have hc := traceExt_trans (hidSend_traceExt hs) (waitAndReceive_traceExt hw)
    simpa only [hw] using hc

theorem releaseBus_traceExt {d : MCP2221} {c : Bool} {w : HidWorld}
    {res : Except Err MCP2221Status} {d2 : MCP2221} {w2 : HidWorld}
    (h : d.releaseBus c w = (res, d2, w2)) :
    ∃ l, w2.trace = w.trace ++ l := by
  obtain ⟨l, hl⟩ := releaseBus_trace d c w
  rw [h] at hl
  exact ⟨l, hl⟩

/-- The first transport interaction of a connected `WriteToAddr` is the
transmission of the request frame built by `writeRequestOf` on the freshly
reset buffer, whatever the device does afterwards. -/
theorem WriteToAddr_first_send (c : Bool) (address : GByte)
    (buffer : List GByte) (w : HidWorld) :
    ∃ rest, (connectedMCP2221.WriteToAddr c address buffer w).2.2.trace =
      w.trace ++ .send (writeRequestOf (resetBuffer (List.replicate 64 0))
        address buffer) :: rest := by
  unfold MCP2221.WriteToAddr
  rw [if_neg (by simp [connectedMCP2221, NewMCP2221, StatusConnected, StatusNew])]
  simp only [connectedMCP2221, NewMCP2221, MCP2221.resetBuffers]
  split
  next e w2 hs => exact ⟨[], by simpa using hidSend_traceEq hs⟩
  next a w2 hs =>
    have h2 := hidSend_traceEq hs
    split
    next e d2 w3 hw =>
      obtain ⟨l, hl⟩ := waitAndReceive_traceExt hw
      exact ⟨l, by rw [hl, h2]; simp⟩
    next a2 d2 w3 hw =>
      obtain ⟨l, hl⟩ := waitAndReceive_traceExt hw
      split
      · split
        next e d3 w4 hr =>
          obtain ⟨l2, hl2⟩ :=
            traceExt_trans ⟨l, hl⟩ (releaseBus_traceExt hr)
          exact ⟨l2, by rw [hl2, h2]; simp⟩
        next s d3 w4 hr =>
          obtain ⟨l2, hl2⟩ :=
            traceExt_trans ⟨l, hl⟩ (releaseBus_traceExt hr)
          exact ⟨l2, by rw [hl2, h2]; simp⟩
      · exact ⟨l, by rw [hl, h2]; simp⟩

/-- The first transport interaction of a connected `ReadFromAddr` is the
transmission of the request frame built by `readRequestOf` on the freshly
reset buffer, whatever the device does afterwards. -/
theorem ReadFromAddr_first_send (c : Bool) (address : GByte)
    (buffer : List GByte) (w : HidWorld) :
    ∃ rest, (connectedMCP2221.ReadFromAddr c address buffer w).2.2.2.trace =
      w.trace ++ .send (readRequestOf (resetBuffer (List.replicate 64 0))
        address buffer) :: rest := by
  unfold MCP2221.ReadFromAddr
  rw [if_neg (by simp [connectedMCP2221, NewMCP2221, StatusConnected, StatusNew])]
  simp only [connectedMCP2221, NewMCP2221, MCP2221.resetBuffers]
  split
  next e w2 hs => exact ⟨[], by simpa using hidSend_traceEq hs⟩
  next a w2 hs =>
    have h2 := hidSend_traceEq hs
    split
    next e d2 w3 hr =>
      obtain ⟨l, hl⟩ := receive_traceExt hr
      exact ⟨l, by rw [hl, h2]; simp⟩
    next a2 d2 w3 hr =>
      have e1 := receive_traceExt hr
      split
      · split
        next e d3 w4 hrel =>
          obtain ⟨l2, hl2⟩ := traceExt_trans e1 (releaseBus_traceExt hrel)
          exact ⟨l2, by rw [hl2, h2]; simp⟩
        next s d3 w4 hrel =>
          obtain ⟨l2, hl2⟩ := traceExt_trans e1 (releaseBus_traceExt hrel)
          exact ⟨l2, by rw [hl2, h2]; simp⟩
      · split
        next e w4 hs2 =>
          obtain ⟨l2, hl2⟩ := traceExt_trans e1 (hidSend_traceExt hs2)
          exact ⟨l2, by rw [hl2, h2]; simp⟩
        next a3 w4 hs2 =>
          have e2 := traceExt_trans e1 (hidSend_traceExt hs2)
          split
          next e d4 w5 hw2 =>
            obtain ⟨l2, hl2⟩ := traceExt_trans e2 (waitAndReceive_traceExt hw2)
            exact ⟨l2, by rw [hl2, h2]; simp⟩
          next a4 d4 w5 hw2 =>
            obtain ⟨l2, hl2⟩ := traceExt_trans e2 (waitAndReceive_traceExt hw2)
            split
            · exact ⟨l2, by rw [hl2, h2]; simp⟩
            · split
              · exact ⟨l2, by rw [hl2, h2]; simp⟩
              · exact ⟨l2, by rw [hl2, h2]; simp⟩

/-- A 64-byte response whose byte 1 reports the 0x01 busy code. -/
def busyResp : Frame := (List.replicate 64 0).set 1 0x01

/-- An all-zero 64-byte response (non-busy, data length 0). -/
def zeroResp : Frame := List.replicate 64 0

/-- A fetch-data response carrying both the 0x41 slave-read failure code at
byte 1 and the invalid-length sentinel 127 at byte 3. -/
def slaveFailResp : Frame := ((List.replicate 64 0).set 1 0x41).set 3 127

/-- A fetch-data response with the invalid-length sentinel 127 at byte 3
and a clean byte 1. -/
def sizeMismatchResp : Frame := (List.replicate 64 0).set 3 127

/-- Recognizes report transmissions in the trace. -/
def isSendEvent : HidEvent → Bool
  | .send _ => true
  | _ => false

/-- The status response buffer of the specification's decoding scenario:
bytes `[9:11] = 0x0A00`, `[11:13] = 0x0A00`, byte 13 = 0x02, byte 14 =
0x01, byte 15 = 0x05, byte 16 = 0x1A, byte 25 = 0x00. -/
def c5buffer : Frame :=
  (((((((((List.replicate 64 0).set 9 0x0A).set 10 0x00).set 11
    0x0A).set 12 0x00).set 13 0x02).set 14 0x01).set 15 0x05).set 16
    0x1A).set 25 0x00

set_option maxRecDepth 4000 in
/-- C1.  Evaluation of the engine at the failing input: on a connected
device whose response to a write carries the busy code 0x01 and whose
release exchange succeeds, `WriteToAddr` performs exactly one internal
release exchange but then returns `nil` (success) instead of the claimed
`BusBusy`; `ReadFromAddr` at the analogous input does return `BusBusy`
after exactly one release exchange.  The claim is right about the intent
(its own release-failure path wraps `ErrBusBusy`, and the sibling
`ReadFromAddr` returns it), but the code's busy branch is missing the
`return sensors.ErrBusBusy`. -/
theorem writeToAddr_busy_swallowed :
    (connectedMCP2221.WriteToAddr false 0x20 [0x12]
      ⟨[true, true], [some busyResp, some zeroResp], []⟩).1 = .ok () ∧
    (connectedMCP2221.WriteToAddr false 0x20 [0x12]
      ⟨[true, true], [some busyResp, some zeroResp], []⟩).2.2.trace.countP
      isReleaseSend = 1 ∧
    (connectedMCP2221.ReadFromAddr false 0x20 [0x00]
      ⟨[true, true], [some busyResp, some zeroResp], []⟩).1 =
      .error .busBusy ∧
    (connectedMCP2221.ReadFromAddr false 0x20 [0x00]
      ⟨[true, true], [some busyResp, some zeroResp], []⟩).2.2.2.trace.countP
      isReleaseSend = 1 := by
  decide

/-- C2.  Whenever the connection state is anything other than
`StatusConnected`, every engine operation (`WriteToAddr`, `ReadFromAddr`,
`Release`, `Status`) returns `ErrNotConnected` immediately, leaving both
the machine state and the transport world (oracle and trace) untouched: no
HID write or read is performed. -/
theorem engine_ops_notConnected (d : MCP2221) (canceled : Bool)
    (address : GByte) (buffer : List GByte) (w : HidWorld)
    (h : d.status ≠ StatusConnected) :
    d.WriteToAddr canceled address buffer w = (.error .notConnected, d, w) ∧
    d.ReadFromAddr canceled address buffer w =
      (.error .notConnected, buffer, d, w) ∧
    d.Release canceled w = (.error .notConnected, d, w) ∧
    d.Status w = (.error .notConnected, d, w) := by
  refine ⟨?_, ?_, ?_, ?_⟩ <;>
    simp [MCP2221.WriteToAddr, MCP2221.ReadFromAddr, MCP2221.Release,
      MCP2221.Status, h]

/-- Witness for C2 at the freshly constructed (never connected) bridge. -/
theorem engine_ops_notConnected_witness :
    NewMCP2221.status ≠ StatusConnected ∧
    (NewMCP2221.WriteToAddr false 0 [] ⟨[], [], []⟩ =
      (.error .notConnected, NewMCP2221, ⟨[], [], []⟩) ∧
    NewMCP2221.ReadFromAddr false 0 [] ⟨[], [], []⟩ =
      (.error .notConnected, [], NewMCP2221, ⟨[], [], []⟩) ∧
    NewMCP2221.Release false ⟨[], [], []⟩ =
      (.error .notConnected, NewMCP2221, ⟨[], [], []⟩) ∧
    NewMCP2221.Status ⟨[], [], []⟩ =
      (.error .notConnected, NewMCP2221, ⟨[], [], []⟩)) :=
  ⟨by decide, engine_ops_notConnected NewMCP2221 false 0 [] ⟨[], [], []⟩
    (by decide)⟩

set_option maxRecDepth 4000 in
/-- C3, counterexample.  A fetch-data response whose data-length byte is
the sentinel 127 (satisfying the claim's hypothesis) but whose byte 1
carries the 0x41 slave-read failure code makes `ReadFromAddr` return the
slave-read error, not the claimed invalid-data-size error (the buffer is
still left unchanged). -/
theorem read_sizeMismatch_masked_by_slaveError :
    getByte slaveFailResp 3 = 127 ∧
    (connectedMCP2221.ReadFromAddr false 0x1A [0x00]
      ⟨[true, true], [some zeroResp, some slaveFailResp], []⟩).1 =
      .error .slaveDataReadFailed ∧
    (connectedMCP2221.ReadFromAddr false 0x1A [0x00]
      ⟨[true, true], [some zeroResp, some slaveFailResp], []⟩).1 ≠
      .error (.invalidDataSize 1 127) ∧
    (connectedMCP2221.ReadFromAddr false 0x1A [0x00]
      ⟨[true, true], [some zeroResp, some slaveFailResp], []⟩).2.1 =
      [0x00] := by
  decide

/-- C3, amended.  For every fetch-data response whose byte 1 is not the
0x41 slave-read failure code and whose data-length byte (byte 3) is the
sentinel 127 or differs from `len(buffer)`, `ReadFromAddr` on a connected
device (with the two exchanges of the command succeeding and the first
response non-busy) returns the invalid-data-size error carrying the
expected (`len(buffer)`) and received (byte 3) sizes, and the caller's
buffer is returned completely unchanged. -/
theorem readFromAddr_invalidDataSize (address : GByte)
    (buffer : List GByte) (r1 r2 : Frame) (s3 : List Bool)
    (r3 : List (Option Frame)) (tr : List HidEvent)
    (h1 : getByte r1 1 ≠ 0x01) (h2 : getByte r2 1 ≠ 0x41)
    (h3 : getByte r2 3 = 127 ∨ getByte r2 3 ≠ buffer.length) :
    (connectedMCP2221.ReadFromAddr false address buffer
        ⟨true :: true :: s3, some r1 :: some r2 :: r3, tr⟩).1 =
      .error (.invalidDataSize buffer.length (getByte r2 3)) ∧
    (connectedMCP2221.ReadFromAddr false address buffer
        ⟨true :: true :: s3, some r1 :: some r2 :: r3, tr⟩).2.1 = buffer := by
  constructor <;>
    simp [MCP2221.ReadFromAddr, connectedMCP2221, NewMCP2221, StatusConnected,
      StatusNew, hidSend, MCP2221.receive, hidRecv, MCP2221.waitAndReceive,
      MCP2221.resetBuffers, h1, h2, h3]

/-- Witness for C3's amended theorem: a one-byte read answered by a clean
first response and a fetch response carrying the sentinel length 127. -/
theorem readFromAddr_invalidDataSize_witness :
    (getByte zeroResp 1 ≠ 0x01 ∧ getByte sizeMismatchResp 1 ≠ 0x41 ∧
      (getByte sizeMismatchResp 3 = 127 ∨
        getByte sizeMismatchResp 3 ≠ ([0x00] : List GByte).length)) ∧
    ((connectedMCP2221.ReadFromAddr false 0x1A [0x00]
        ⟨[true, true], [some zeroResp, some sizeMismatchResp], []⟩).1 =
      .error (.invalidDataSize ([0x00] : List GByte).length
        (getByte sizeMismatchResp 3)) ∧
    (connectedMCP2221.ReadFromAddr false 0x1A [0x00]
        ⟨[true, true], [some zeroResp, some sizeMismatchResp], []⟩).2.1 =
      [0x00]) :=
  ⟨⟨by decide, by decide, by decide⟩,
    readFromAddr_invalidDataSize 0x1A [0x00] zeroResp sizeMismatchResp [] []
      [] (by decide) (by decide) (by decide)⟩

/-- C4.  For every byte address and payload within the frame's 60-byte
capacity, the transmitted I2C write request frame is exactly the
specification frame (opcode 0x90, little-endian 16-bit payload length at
bytes 1-2, address shifted left by one at byte 3, payload from byte 4),
and the transmitted I2C read request frame is exactly the specification
read frame (opcode 0x91, little-endian 16-bit requested length,
`(address << 1) | 1` at byte 3). -/
theorem i2c_request_frames_spec (canceled : Bool) (address : GByte)
    (buffer : List GByte) (w : HidWorld) (ha : address < 256)
    (hb : buffer.length ≤ 60) :
    (∃ rest,
      (connectedMCP2221.WriteToAddr canceled address buffer w).2.2.trace =
        w.trace ++ .send (specI2CWriteFrame address buffer) :: rest) ∧
    (∃ rest,
      (connectedMCP2221.ReadFromAddr canceled address buffer w).2.2.2.trace =
        w.trace ++ .send (specI2CReadFrame address buffer.length) :: rest) := by
  constructor
  · have h := WriteToAddr_first_send canceled address buffer w
    rwa [writeRequestOf_spec address buffer hb] at h
  · have h := ReadFromAddr_first_send canceled address buffer w
    rwa [readRequestOf_spec address buffer ha] at h

/-- Witness for C4 at address 0x5A with a three-byte payload. -/
theorem i2c_request_frames_spec_witness :
    ((0x5A : GByte) < 256 ∧ ([1, 2, 3] : List GByte).length ≤ 60) ∧
    ((∃ rest,
      (connectedMCP2221.WriteToAddr false 0x5A [1, 2, 3]
          ⟨[], [], []⟩).2.2.trace =
        [] ++ .send (specI2CWriteFrame 0x5A [1, 2, 3]) :: rest) ∧
    (∃ rest,
      (connectedMCP2221.ReadFromAddr false 0x5A [1, 2, 3]
          ⟨[], [], []⟩).2.2.2.trace =
        [] ++ .send (specI2CReadFrame 0x5A
          ([1, 2, 3] : List GByte).length) :: rest)) :=
  ⟨⟨by decide, by decide⟩,
    i2c_request_frames_spec false 0x5A [1, 2, 3] ⟨[], [], []⟩ (by decide)
      (by decide)⟩

set_option maxRecDepth 4000 in
/-- C5.  Decoding the specified concrete 64-byte status response yields
exactly the claimed `BridgeStatus` snapshot: both sizes decoded as
little-endian 16-bit from bytes 9-10 and 11-12 give 10, buffer counter 2,
speed divider 1, timeout 5, I2C address 0x1A, read-pending 0. -/
theorem status_scenario_decode :
    (bufferToStatus c5buffer).LastI2CRequestedSize = 10 ∧
    (bufferToStatus c5buffer).LastI2CTransferredSize = 10 ∧
    (bufferToStatus c5buffer).I2CDataBufferCounter = 2 ∧
    (bufferToStatus c5buffer).I2CSpeedDivider = 1 ∧
    (bufferToStatus c5buffer).I2CTimeout = 5 ∧
    (bufferToStatus c5buffer).I2CAddress = 0x1A ∧
    (bufferToStatus c5buffer).ReadPending = 0 := by
  decide

set_option maxRecDepth 4000 in
/-- C6, counterexample.  A 61-byte payload is not rejected: `WriteToAddr`
builds a frame and transmits it (one report write appears in the trace)
and, with a clean response, the call even returns success -- there is no
payload-too-large failure before transmission. -/
theorem oversize_payload_transmitted :
    (connectedMCP2221.WriteToAddr false 0x10 (List.replicate 61 0xAB)
      ⟨[true], [some zeroResp], []⟩).1 = .ok () ∧
    (connectedMCP2221.WriteToAddr false 0x10 (List.replicate 61 0xAB)
      ⟨[true], [some zeroResp], []⟩).2.2.trace.countP isSendEvent = 1 := by
  decide

/-- C6, amended.  A payload longer than the 60-byte data capacity is not
rejected with a payload-too-large error: the frame is transmitted anyway,
recording the full payload length at bytes 1-2 while carrying only the
first 60 payload bytes; keeping payloads within the capacity is the
caller's responsibility. -/
theorem oversize_payload_truncated (canceled : Bool) (address : GByte)
    (buffer : List GByte) (w : HidWorld) (hb : 60 < buffer.length) :
    ∃ rest,
      (connectedMCP2221.WriteToAddr canceled address buffer w).2.2.trace =
        w.trace ++ .send (0x90 :: buffer.length % 256 ::
          buffer.length / 256 % 256 :: (address <<< 1) % 256 ::
          buffer.take 60) :: rest := by
  have h := WriteToAddr_first_send canceled address buffer w
  rwa [writeRequestOf_trunc address buffer (Nat.le_of_lt hb)] at h

set_option maxRecDepth 4000 in
/-- Witness for C6's amended theorem at a 61-byte payload. -/
theorem oversize_payload_truncated_witness :
    60 < (List.replicate 61 0xAB : List GByte).length ∧
    ∃ rest,
      (connectedMCP2221.WriteToAddr false 0x10 (List.replicate 61 0xAB)
          ⟨[true], [some zeroResp], []⟩).2.2.trace =
        [] ++ .send (0x90 :: (List.replicate 61 0xAB : List GByte).length
          % 256 :: (List.replicate 61 0xAB : List GByte).length / 256
          % 256 :: ((0x10 : GByte) <<< 1) % 256 ::
          (List.replicate 61 0xAB : List GByte).take 60) :: rest :=
  ⟨by decide, oversize_payload_truncated false 0x10 (List.replicate 61 0xAB)
    ⟨[true], [some zeroResp], []⟩ (by decide)⟩

/-- C7, counterexample.  With the default `retryLimit` of 1, a transport
that reports `BusBusy` on the first attempt makes `ReadA` perform exactly
one operation attempt (a single transport write call appears in the call
trace, not the two the claim's "attempts the operation once more" would
require): the driver releases the bus and then returns the
retry-limit-reached error without a second attempt. -/
theorem mcp23017_busy_single_attempt :
    MCP23017.ReadA (NewMCP23017 0x21) ⟨[.error .busy, .ok []], []⟩ =
      (.retryLimitReached 0 (some .busy),
       ⟨[], [.writeCall 0x21 [0x12], .releaseCall]⟩) ∧
    ¬((MCP23017.ReadA (NewMCP23017 0x21)
        ⟨[.error .busy, .ok []], []⟩).2.calls.countP isAttemptCall = 2) := by
  decide

/-- C7, amended.  With the default `retryLimit` of 1, the driver attempts
the operation exactly once: on `BusBusy` it calls `Release` and returns
the retry-limit-reached error without a second attempt (the limit bounds
total attempts, not retries after the first), while on any other transport
error it aborts immediately, without retrying and without calling
`Release`. -/
theorem mcp23017_retry_semantics :
    ∀ (address : GByte) (rest : List (Except BusErr (List GByte))),
    MCP23017.ReadA (NewMCP23017 address) ⟨.error .busy :: rest, []⟩ =
      (.retryLimitReached 0 (some .busy),
       { script := rest.drop 1,
         calls := [.writeCall address [0x12], .releaseCall] }) ∧
    MCP23017.ReadA (NewMCP23017 address) ⟨.error .other :: rest, []⟩ =
      (.aborted 0 .other,
       { script := rest, calls := [.writeCall address [0x12]] }) := by
  intro address rest
  constructor
  · cases rest <;> rfl
  · rfl

/-- C8.  When the caller's cancellation fires before the guard delay
elapses, `waitAndReceive` returns the cancellation error with the machine
and the transport world untouched (the response read is not performed),
and a whole `WriteToAddr` under such a context returns the cancellation
error after its request write, consuming no read from the device and
adding no read event to the trace. -/
theorem cancellation_beats_guard_delay :
    ∀ (d : MCP2221) (w : HidWorld) (address : GByte) (buffer : List GByte)
      (s : List Bool) (r : List (Option Frame)) (tr : List HidEvent),
    d.waitAndReceive true w = (.error .ctxCanceled, d, w) ∧
    (connectedMCP2221.WriteToAddr true address buffer
        ⟨true :: s, r, tr⟩).1 = .error .ctxCanceled ∧
    (connectedMCP2221.WriteToAddr true address buffer
        ⟨true :: s, r, tr⟩).2.2.recvOutcomes = r ∧
    (connectedMCP2221.WriteToAddr true address buffer
        ⟨true :: s, r, tr⟩).2.2.trace.countP isRecvEvent =
      tr.countP isRecvEvent := by
  intro d w address buffer s r tr
  refine ⟨rfl, ?_, ?_, ?_⟩ <;>
    simp [MCP2221.WriteToAddr, connectedMCP2221, NewMCP2221, StatusConnected,
      StatusNew, hidSend, MCP2221.waitAndReceive, List.countP_append,
      isRecvEvent]

/-- C10.  Whenever the status poll inside the transfer-polling helper
fails, the tick branch of `waitForI2CTransfer` reaches the nil-status
dereference (`status.I2CAddress` with `status == nil` in Go) instead of
returning an error: the helper is not total on the poll-failure branch. -/
theorem pollTick_nil_deref (d : MCP2221) (address : GByte) (w : HidWorld)
    (e : Err) (h : (d.doGetStatus w).1 = .error e) :
    (d.waitForI2CTransferTick address w).1 = .nilStatusPanic := by
  unfold MCP2221.waitForI2CTransferTick
  rcases hp : d.doGetStatus w with ⟨res, d2, w2⟩
  rw [hp] at h
  simp only at h
  subst h
  rfl

/-- Witness for C10: a device whose status request write fails. -/
theorem pollTick_nil_deref_witness :
    (connectedMCP2221.doGetStatus ⟨[false], [], []⟩).1 =
      .error .sendFailed ∧
    (connectedMCP2221.waitForI2CTransferTick 0x1A ⟨[false], [], []⟩).1 =
      .nilStatusPanic :=
  ⟨by decide, pollTick_nil_deref connectedMCP2221 0x1A ⟨[false], [], []⟩
    .sendFailed (by decide)⟩
